import Mathlib

/-!
Shallow embedding of the NeuralTranslate front end.

The repository contains two translation UIs sharing copy-pasted logic:

* a React page (`app/page.tsx`): state `sourceText`, `translatedText`,
  `secondaryTranslation`, `sourceLang`, `targetLang`; the orchestrator
  `handleTranslate` resolves the "auto" sentinel through
  `mockDetectLanguage` and posts to `/api/translate` via `translateText`;
* a classic script (`static/js/script.js`): DOM state `translationResult`,
  `errorContainer`; its `translateText` posts to `/translate` and shows
  errors in a separate container;
* a Next.js API route (`app/api/translate/route.ts`): `POST` forwards the
  body to the hosted model and converts every failure to a 500 JSON body;
* a heatmap renderer (`static/js/heatmap.js`): `applyQualityHeatmap`
  tokenizes the translated text, synthesizes a pseudo-random per-token
  score and maps it to a display tier.

JavaScript strings are modelled as Lean `String`s (all characters the
claims touch are in the BMP, where UTF-16 code units and code points
agree); `Math.random()` draws are explicit rational parameters in `[0,1)`;
thrown JavaScript values are `Option String` (`some m` an `Error` whose
`.message` is `m`, `none` any non-`Error` value); fallible async steps are
explicit `Except` inputs.
-/

/-- The character class of the ECMAScript regex `\s`, which is also the
set trimmed by `String.prototype.trim`: tab..carriage-return, space,
no-break space, the Unicode space separators, line/paragraph separator
and the BOM. -/
def isJsWs (c : Char) : Bool :=
  let n := c.toNat
  (9 ≤ n ∧ n ≤ 13) ∨ n = 32 ∨ n = 0xa0 ∨ n = 0x1680 ∨
    (0x2000 ≤ n ∧ n ≤ 0x200a) ∨ n = 0x2028 ∨ n = 0x2029 ∨
    n = 0x202f ∨ n = 0x205f ∨ n = 0x3000 ∨ n = 0xfeff

/-- JavaScript `String.prototype.trim`. -/
def jsTrim (s : String) : String :=
  String.mk (((s.data.dropWhile isJsWs).reverse.dropWhile isJsWs).reverse)

/-- JavaScript `a || b` on strings: the empty string is falsy. -/
def jsOr (a b : String) : String :=
  if a = "" then b else a

/-- A possibly-`undefined` JavaScript string field read as a string for
`||` chains (`undefined` is falsy, like `""`). -/
def optStr (o : Option String) : String :=
  o.getD ""

/-- `mockDetectLanguage` from `app/page.tsx` (lines 76-98): look at
`text.charAt(0).charCodeAt(0)` and map fixed code-point ranges to a
language name; inside the ASCII range `0x41..0x7a` apply diacritic
substring checks; everything else (including the empty string, whose
`charCodeAt` is `NaN` and fails every range test) falls through to
`"English"`. -/
def mockDetectLanguage (text : String) : String :=
  match text.data.head? with
  | none => "English"
  | some ch =>
    let code := ch.toNat
    if 0x3040 ≤ code ∧ code ≤ 0x30ff then "Japanese"
    else if 0x0900 ≤ code ∧ code ≤ 0x097f then "Hindi"
    else if 0x0b80 ≤ code ∧ code ≤ 0x0bff then "Tamil"
    else if 0x0c00 ≤ code ∧ code ≤ 0x0c7f then "Telugu"
    else if 0x0c80 ≤ code ∧ code ≤ 0x0cff then "Kannada"
    else if 0x0d00 ≤ code ∧ code ≤ 0x0d7f then "Malayalam"
    else if 0x0041 ≤ code ∧ code ≤ 0x007a then
      if text.data.contains 'é' ∨ text.data.contains 'à' ∨ text.data.contains 'ç' then "French"
      else if text.data.contains 'ñ' ∨ text.data.contains '¿' then "Spanish"
      else if text.data.contains 'ß' ∨ text.data.contains 'ü' then "German"
      else "English"
    else "English"

/-- The JSON body `translateText` in `app/page.tsx` posts to
`/api/translate`: `source_lang` is omitted (`undefined`) when the caller
passes the sentinel `"auto"`. -/
structure TransRequest where
  text : String
  source_lang : Option String
  target_lang : String
deriving DecidableEq

/-- The parsed JSON of a `/api/translate` response as read by the React
client: optional `translation` / `translated_text` payloads and optional
`error` / `details` fields (absent field = `none`). -/
structure RespData where
  translation : Option String
  translated_text : Option String
  error : Option String
  details : Option String
deriving DecidableEq

/-- Outcome of the `fetch` + `response.json()` sequence inside the React
`translateText`: either some step threw (`some m` = an `Error` with
message `m`, `none` = a non-`Error` value), or a response arrived and its
body parsed, carrying `response.ok`, `response.statusText` and the data. -/
inductive FetchOutcome where
  | thrown (msg : Option String)
  | completed (ok : Bool) (statusText : String) (data : RespData)
deriving DecidableEq

/-- `translateText` from `app/page.tsx` (lines 29-64).  Returns the
request it posts (`none` when the trimmed text is empty and it
short-circuits) together with the string it resolves to: the translation
on success, and on any failure the caught error's message
(`data.details || data.error || "Translation failed: " + statusText` for
a non-ok response, the generic message for a non-`Error` throw). -/
def translateText (text : String) (sourceLang targetLang : String)
    (outcome : FetchOutcome) : Option TransRequest × String :=
  if jsTrim text = "" then (none, "")
  else
    let req : TransRequest :=
      { text := text
        source_lang := if sourceLang = "auto" then none else some sourceLang
        target_lang := targetLang }
    match outcome with
    | .thrown (some m) => (some req, m)
    | .thrown none => (some req, "Translation failed. Please try again.")
    | .completed ok statusText data =>
      if ok then
        (some req, jsOr (optStr data.translation) (jsOr (optStr data.translated_text) ""))
      else
        (some req, jsOr (optStr data.details)
          (jsOr (optStr data.error) ("Translation failed: " ++ statusText)))

/-- The React component state of `app/page.tsx` that the translation
handlers read and write. -/
structure AppState where
  sourceText : String
  translatedText : String
  secondaryTranslation : String
  sourceLang : String
  targetLang : String
  isTranslating : Bool
deriving DecidableEq

/-- `handleTranslate` from `app/page.tsx` (lines 179-219): empty trimmed
input clears both result fields and returns without a request; otherwise
the `"auto"` sentinel is resolved through `mockDetectLanguage`, the
request is posted via `translateText`, the resolved string becomes
`translatedText`, and `secondaryTranslation` becomes the result (target
not English) or the source text (target English).  `isTranslating` is
reset by the `finally` block.  (`translateText` never throws, so the
surrounding `catch` is unreachable.) -/
def handleTranslate (st : AppState) (outcome : FetchOutcome) :
    AppState × Option TransRequest :=
  if jsTrim st.sourceText = "" then
    ({ st with translatedText := "", secondaryTranslation := "" }, none)
  else
    let sourceLanguage :=
      if st.sourceLang = "auto" then mockDetectLanguage st.sourceText else st.sourceLang
    let r := translateText st.sourceText sourceLanguage st.targetLang outcome
    ({ st with
        translatedText := r.2
        secondaryTranslation := if st.targetLang ≠ "English" then r.2 else st.sourceText
        isTranslating := false }, r.1)

/-- `handleSwapLanguages` from `app/page.tsx` (lines 170-176): all five
setters read the state captured at render time, so the swap is a
simultaneous exchange; `secondaryTranslation` is unconditionally
cleared. -/
def handleSwapLanguages (st : AppState) : AppState :=
  { st with
      sourceLang := st.targetLang
      targetLang := st.sourceLang
      sourceText := st.translatedText
      translatedText := st.sourceText
      secondaryTranslation := "" }

/-- The DOM-bound state of the classic UI (`static/js/script.js`):
the source textarea, the result element's text content, the error
container (message and visibility) and the loading flag. -/
structure ClassicState where
  sourceText : String
  translationResult : String
  errorText : String
  errorVisible : Bool
  loading : Bool
deriving DecidableEq

/-- The JSON body the classic `translateText` posts to `/translate`. -/
structure ClassicRequest where
  text : String
  target_lang : String
  use_mbart : Bool
deriving DecidableEq

/-- The parsed JSON of a `/translate` response as read by
`static/js/script.js`. -/
structure ClassicData where
  translation : Option String
  error : Option String
deriving DecidableEq

/-- Outcome of the classic `fetch` + `response.json()` sequence: a throw
anywhere in the `try` block, or a parsed response with `response.ok` and
the data. -/
inductive ClassicOutcome where
  | thrown
  | completed (ok : Bool) (data : ClassicData)
deriving DecidableEq

/-- `translateText` from `static/js/script.js` (lines 93-150).  Empty
trimmed text shows a validation error and returns without a request
(`translationResult` is left as it was).  Otherwise it posts, and on
`!response.ok || data.error` shows `data.error || generic` in the error
container (again leaving `translationResult` untouched); on success
`displayTranslation` overwrites `translationResult`; a throw shows a
generic error. -/
def classicTranslate (st : ClassicState) (lang : String) (useMbart : Bool)
    (outcome : ClassicOutcome) : ClassicState × Option ClassicRequest :=
  let text := jsTrim st.sourceText
  if text = "" then
    ({ st with errorText := "Please enter some text to translate.", errorVisible := true },
      none)
  else
    let req : ClassicRequest := { text := text, target_lang := lang, use_mbart := useMbart }
    match outcome with
    | .thrown =>
      ({ st with
          loading := false
          errorText := "An error occurred. Please try again later."
          errorVisible := true }, some req)
    | .completed ok data =>
      if ok = false ∨ optStr data.error ≠ "" then
        ({ st with
            loading := false
            errorText := jsOr (optStr data.error) "Translation failed. Please try again."
            errorVisible := true }, some req)
      else
        ({ st with
            loading := false
            errorVisible := false
            translationResult := optStr data.translation }, some req)

/-- The JSON body `POST` in `app/api/translate/route.ts` parses from the
incoming request. -/
structure RouteReqBody where
  text : String
  source_lang : Option String
  target_lang : String
deriving DecidableEq

/-- The body the route forwards upstream (lines 29-33): the `"auto"`
sentinel is replaced by `undefined`. -/
def routeForward (b : RouteReqBody) : RouteReqBody :=
  { b with source_lang := if b.source_lang = some "auto" then none else b.source_lang }

/-- The upstream response as the route consumes it: `response.ok`,
`response.statusText`, and the two fallible body reads (`response.text()`
on the error path, `response.json()` on the success path), each of which
can itself throw. -/
structure UpstreamResponse (α : Type) where
  ok : Bool
  statusText : String
  textBody : Except (Option String) String
  jsonBody : Except (Option String) α

/-- The 500-path body the route builds in its `catch`. -/
structure RouteErrorBody where
  error : String
  details : String
deriving DecidableEq

/-- What the route responds with: the upstream JSON re-serialized, or the
error body. -/
inductive RouteBody (α : Type) where
  | json (data : α)
  | err (body : RouteErrorBody)

/-- An HTTP response of the route: status code plus JSON body. -/
structure RouteResult (α : Type) where
  status : Nat
  body : RouteBody α

/-- `POST` from `app/api/translate/route.ts` (lines 18-57).  The `try`
block parses the request body, fetches upstream, and either re-serializes
the upstream JSON (status 200, `NextResponse.json(data)`) or throws; the
`catch` turns any throw into status 500 with a fixed `error` string and
`details` from the thrown `Error`'s message (or `'Unknown error'`). -/
def routePOST (α : Type) (reqParse : Except (Option String) RouteReqBody)
    (fetched : Except (Option String) (UpstreamResponse α)) : RouteResult α :=
  let run : Except (Option String) α := do
    let _ ← reqParse
    let resp ← fetched
    if resp.ok then
      resp.jsonBody
    else do
      let errorText ← resp.textBody
      Except.error (some ("Translation failed: " ++ resp.statusText ++ ". Details: " ++ errorText))
  match run with
  | .ok data => { status := 200, body := .json data }
  | .error e =>
    { status := 500
      body := .err
        { error := "Translation failed. Please try again."
          details := e.getD "Unknown error" } }

/-- The allow-list test in `applyQualityHeatmap`
(`['ja', 'zh', 'th', 'km', 'lo', 'my'].includes(targetLang.value)`). -/
def isAsian (lang : String) : Bool :=
  ["ja", "zh", "th", "km", "lo", "my"].contains lang

/-- JavaScript `text.split(/\s+/)` on the character list: maximal
whitespace runs are separators, and a leading or trailing run contributes
an empty token, exactly as the ECMAScript `split` algorithm does
(`"".split` gives `[""]`, `" a ".split` gives `["", "a", ""]`). -/
def splitWs : List Char → List (List Char)
  | [] => [[]]
  | [c] => if isJsWs c then [[], []] else [[c]]
  | c :: r :: rs =>
    if isJsWs c then
      (if isJsWs r then splitWs (r :: rs) else [] :: splitWs (r :: rs))
    else
      match splitWs (r :: rs) with
      | t :: ts => (c :: t) :: ts
      | [] => [[c]]

/-- The token list `items` of `applyQualityHeatmap`
(`isAsian ? text.split('') : text.split(/\s+/)`). -/
def heatmapItems (targetLangVal : String) (text : String) : List String :=
  if isAsian targetLangVal then text.data.map (fun c => String.mk [c])
  else (splitWs text.data).map (fun t => String.mk t)

/-- Concatenation of the characters of a token list (used to relate the
tokens back to the input text). -/
def joinData (l : List String) : List Char :=
  l.foldr (fun s acc => s.data ++ acc) []

/-- `const overallQuality = metrics.quality || 0.5` — a missing quality
and a quality of exactly `0` (both falsy) default to `0.5`. -/
def overallQuality (q : Option ℚ) : ℚ :=
  match q with
  | none => 1/2
  | some v => if v = 0 then 1/2 else v

/-- The per-token score synthesis of `applyQualityHeatmap` (lines
1155-1166 of the heatmap script), with the four potential `Math.random()`
draws made explicit: `variation = r1 * 0.4 - 0.2`;
`score = min(0.95, max(0.05, overallQuality + variation))`; then with
probability 5% (`r2 < 0.05`) the score is replaced by the outlier
`r3 * 0.5 + (r4 < 0.5 ? 0 : 0.5)`. -/
def synthScore (oq r1 r2 r3 r4 : ℚ) : ℚ :=
  let variation := r1 * (2/5) - 1/5
  let score := min (19/20) (max (1/20) (oq + variation))
  if r2 < 1/20 then r3 * (1/2) + (if r4 < 1/2 then 0 else 1/2) else score

/-- The tier mapping of `applyQualityHeatmap` (lines 1175-1187):
`score >= 0.7` excellent, `>= 0.4` good, `>= 0.2` fair, else poor. -/
def qualityClass (score : ℚ) : String :=
  if 7/10 ≤ score then "quality-excellent"
  else if 2/5 ≤ score then "quality-good"
  else if 1/5 ≤ score then "quality-fair"
  else "quality-poor"

/-- C10: a single language swap exchanges `sourceLang` with `targetLang`
and `sourceText` with `translatedText` and unconditionally clears
`secondaryTranslation`; applying it twice restores all four exchanged
fields to their original values. -/
theorem swap_twice_restores (st : AppState) :
    (handleSwapLanguages (handleSwapLanguages st)).sourceLang = st.sourceLang ∧
    (handleSwapLanguages (handleSwapLanguages st)).targetLang = st.targetLang ∧
    (handleSwapLanguages (handleSwapLanguages st)).sourceText = st.sourceText ∧
    (handleSwapLanguages (handleSwapLanguages st)).translatedText = st.translatedText ∧
    (handleSwapLanguages st).sourceLang = st.targetLang ∧
    (handleSwapLanguages st).targetLang = st.sourceLang ∧
    (handleSwapLanguages st).sourceText = st.translatedText ∧
    (handleSwapLanguages st).translatedText = st.sourceText ∧
    (handleSwapLanguages st).secondaryTranslation = "" := by
  simp [handleSwapLanguages]

/-- C4 counterexample: on the empty string the detector falls through to
`"English"`, the very tag it returns for ordinary English text, so the
empty-string result is not an explicit "no detection" value distinct from
every concrete language tag. -/
theorem detector_empty_counterexample :
    mockDetectLanguage "" = "English" ∧
    mockDetectLanguage "" = mockDetectLanguage "hello" := by
  decide

/-- C4 (amended): on the empty string `mockDetectLanguage` does not crash
(`charCodeAt(0)` is `NaN`, every range test fails) and returns the
default tag `"English"` — the same value as for concrete English text,
not a distinguished "no detection" result; callers guard against empty
input before invoking the detector. -/
theorem detector_empty_default :
    mockDetectLanguage "" = "English" := by
  decide

/-- C7: the heatmap tier mapping uses exactly the thresholds 0.7 / 0.4 /
0.2 for every synthesized score. -/
theorem tier_thresholds (s : ℚ) :
    (7/10 ≤ s → qualityClass s = "quality-excellent") ∧
    (2/5 ≤ s → s < 7/10 → qualityClass s = "quality-good") ∧
    (1/5 ≤ s → s < 2/5 → qualityClass s = "quality-fair") ∧
    (s < 1/5 → qualityClass s = "quality-poor") := by
  unfold qualityClass
  refine ⟨fun h => ?_, fun h h' => ?_, fun h h' => ?_, fun h => ?_⟩ <;>
    split_ifs <;> first | rfl | linarith

/-- Witness for `tier_thresholds` at the boundary scores 0.7, 0.4, 0.2
and at 0.1. -/
theorem tier_thresholds_witness :
    qualityClass (7/10) = "quality-excellent" ∧
    qualityClass (2/5) = "quality-good" ∧
    qualityClass (1/5) = "quality-fair" ∧
    qualityClass (1/10) = "quality-poor" :=
  ⟨(tier_thresholds (7/10)).1 (by norm_num),
   (tier_thresholds (2/5)).2.1 (by norm_num) (by norm_num),
   (tier_thresholds (1/5)).2.2.1 (by norm_num) (by norm_num),
   (tier_thresholds (1/10)).2.2.2 (by norm_num)⟩

/-- C5 counterexample: "Bonjour" contains none of the diacritics the
Latin heuristic looks for, so the detector resolves "English", not
"French", and the posted body carries `source_lang: "English"`. -/
theorem bonjour_counterexample :
    mockDetectLanguage "Bonjour" = "English" ∧
    mockDetectLanguage "Bonjour" ≠ "French" ∧
    (handleTranslate
        { sourceText := "Bonjour", translatedText := "", secondaryTranslation := ""
          sourceLang := "auto", targetLang := "English", isTranslating := false }
        (.completed true "" { translation := some "Hello", translated_text := none
                              error := none, details := none })).2 =
      some { text := "Bonjour", source_lang := some "English", target_lang := "English" } := by
  decide

/-- C5 (amended): for text="Bonjour", sourceLang="auto",
targetLang="English", the orchestrator first resolves the source language
through the detector, the detector resolves "English" (Latin fallback —
"Bonjour" has no diacritic), and for every fetch outcome the request body
posted is {text:"Bonjour", source_lang:"English", target_lang:"English"}. -/
theorem bonjour_posts_english (tt sec : String) (isT : Bool) (outcome : FetchOutcome) :
    mockDetectLanguage "Bonjour" = "English" ∧
    (handleTranslate
        { sourceText := "Bonjour", translatedText := tt, secondaryTranslation := sec
          sourceLang := "auto", targetLang := "English", isTranslating := isT }
        outcome).2 =
      some { text := "Bonjour", source_lang := some "English", target_lang := "English" } := by
  refine ⟨by decide, ?_⟩
  have htrim : ¬ (jsTrim "Bonjour" = "") := by decide
  have hdet : mockDetectLanguage "Bonjour" = "English" := by decide
  cases outcome with
  | thrown m =>
    cases m <;>
      simp [handleTranslate, translateText, htrim, hdet]
  | completed ok statusText data =>
    cases ok <;>
      simp [handleTranslate, translateText, htrim, hdet]

/-- The detector's answer as a function of the leading character and the
six diacritic flags alone (used to state that nothing else influences
`mockDetectLanguage`). -/
def detectAux (hd : Option Char) (fr1 fr2 fr3 sp1 sp2 ge1 ge2 : Bool) : String :=
  match hd with
  | none => "English"
  | some ch =>
    let code := ch.toNat
    if 0x3040 ≤ code ∧ code ≤ 0x30ff then "Japanese"
    else if 0x0900 ≤ code ∧ code ≤ 0x097f then "Hindi"
    else if 0x0b80 ≤ code ∧ code ≤ 0x0bff then "Tamil"
    else if 0x0c00 ≤ code ∧ code ≤ 0x0c7f then "Telugu"
    else if 0x0c80 ≤ code ∧ code ≤ 0x0cff then "Kannada"
    else if 0x0d00 ≤ code ∧ code ≤ 0x0d7f then "Malayalam"
    else if 0x0041 ≤ code ∧ code ≤ 0x007a then
      if fr1 ∨ fr2 ∨ fr3 then "French"
      else if sp1 ∨ sp2 then "Spanish"
      else if ge1 ∨ ge2 then "German"
      else "English"
    else "English"

/-- `mockDetectLanguage` factors through the first character and the six
diacritic-presence flags. -/
theorem mockDetect_eq_aux (t : String) :
    mockDetectLanguage t =
      detectAux t.data.head? (t.data.contains 'é') (t.data.contains 'à')
        (t.data.contains 'ç') (t.data.contains 'ñ') (t.data.contains '¿')
        (t.data.contains 'ß') (t.data.contains 'ü') := by
  unfold mockDetectLanguage detectAux
  cases t.data.head? <;> rfl

/-- C3: for non-empty input the detector's answer is a function of the
first character's code point together with the six diacritic substring
flags (which only matter for an ASCII-Latin leading character): the
Hiragana/Katakana, Devanagari, Tamil, Telugu, Kannada and Malayalam
blocks map to their languages, and a Latin letter leads to the
French/Spanish/German diacritic chain with English as the default. -/
theorem detector_first_char_cases :
    (∀ (c : Char) (cs : List Char), 0x3040 ≤ c.toNat ∧ c.toNat ≤ 0x30ff →
        mockDetectLanguage (String.mk (c :: cs)) = "Japanese") ∧
    (∀ (c : Char) (cs : List Char), 0x0900 ≤ c.toNat ∧ c.toNat ≤ 0x097f →
        mockDetectLanguage (String.mk (c :: cs)) = "Hindi") ∧
    (∀ (c : Char) (cs : List Char), 0x0b80 ≤ c.toNat ∧ c.toNat ≤ 0x0bff →
        mockDetectLanguage (String.mk (c :: cs)) = "Tamil") ∧
    (∀ (c : Char) (cs : List Char), 0x0c00 ≤ c.toNat ∧ c.toNat ≤ 0x0c7f →
        mockDetectLanguage (String.mk (c :: cs)) = "Telugu") ∧
    (∀ (c : Char) (cs : List Char), 0x0c80 ≤ c.toNat ∧ c.toNat ≤ 0x0cff →
        mockDetectLanguage (String.mk (c :: cs)) = "Kannada") ∧
    (∀ (c : Char) (cs : List Char), 0x0d00 ≤ c.toNat ∧ c.toNat ≤ 0x0d7f →
        mockDetectLanguage (String.mk (c :: cs)) = "Malayalam") ∧
    (∀ (c : Char) (cs : List Char),
        (0x41 ≤ c.toNat ∧ c.toNat ≤ 0x5a) ∨ (0x61 ≤ c.toNat ∧ c.toNat ≤ 0x7a) →
        mockDetectLanguage (String.mk (c :: cs)) =
          (if (c :: cs).contains 'é' ∨ (c :: cs).contains 'à' ∨ (c :: cs).contains 'ç'
            then "French"
           else if (c :: cs).contains 'ñ' ∨ (c :: cs).contains '¿' then "Spanish"
           else if (c :: cs).contains 'ß' ∨ (c :: cs).contains 'ü' then "German"
           else "English")) ∧
    (∀ t u : String, t.data.head? = u.data.head? →
        t.data.contains 'é' = u.data.contains 'é' →
        t.data.contains 'à' = u.data.contains 'à' →
        t.data.contains 'ç' = u.data.contains 'ç' →
        t.data.contains 'ñ' = u.data.contains 'ñ' →
        t.data.contains '¿' = u.data.contains '¿' →
        t.data.contains 'ß' = u.data.contains 'ß' →
        t.data.contains 'ü' = u.data.contains 'ü' →
        mockDetectLanguage t = mockDetectLanguage u) := by
  refine ⟨?_, ?_, ?_, ?_, ?_, ?_, ?_, ?_⟩
  case _ =>
    intro c cs h
    have hdata : (String.mk (c :: cs)).data = c :: cs := rfl
    simp only [mockDetectLanguage, hdata, List.head?_cons]
    rw [if_pos (by omega)]
  case _ =>
    intro c cs h
    have hdata : (String.mk (c :: cs)).data = c :: cs := rfl
    simp only [mockDetectLanguage, hdata, List.head?_cons]
    rw [if_neg (by omega), if_pos (by omega)]
  case _ =>
    intro c cs h
    have hdata : (String.mk (c :: cs)).data = c :: cs := rfl
    simp only [mockDetectLanguage, hdata, List.head?_cons]
    rw [if_neg (by omega), if_neg (by omega), if_pos (by omega)]
  case _ =>
    intro c cs h
    have hdata : (String.mk (c :: cs)).data = c :: cs := rfl
    simp only [mockDetectLanguage, hdata, List.head?_cons]
    rw [if_neg (by omega), if_neg (by omega), if_neg (by omega), if_pos (by omega)]
  case _ =>
    intro c cs h
    have hdata : (String.mk (c :: cs)).data = c :: cs := rfl
    simp only [mockDetectLanguage, hdata, List.head?_cons]
    rw [if_neg (by omega), if_neg (by omega), if_neg (by omega), if_neg (by omega),
      if_pos (by omega)]
  case _ =>
    intro c cs h
    have hdata : (String.mk (c :: cs)).data = c :: cs := rfl
    simp only [mockDetectLanguage, hdata, List.head?_cons]
    rw [if_neg (by omega), if_neg (by omega), if_neg (by omega), if_neg (by omega),
      if_neg (by omega), if_pos (by omega)]
  case _ =>
    intro c cs h
    have hdata : (String.mk (c :: cs)).data = c :: cs := rfl
    simp only [mockDetectLanguage, hdata, List.head?_cons]
    rw [if_neg (by omega), if_neg (by omega), if_neg (by omega), if_neg (by omega),
      if_neg (by omega), if_neg (by omega), if_pos (by omega)]
  case _ =>
    intro t u hh h1 h2 h3 h4 h5 h6 h7
    rw [mockDetect_eq_aux, mockDetect_eq_aux, hh, h1, h2, h3, h4, h5, h6, h7]

/-- Witness for `detector_first_char_cases`: "こ" (U+3053) detects as
Japanese and "Señor" detects as Spanish. -/
theorem detector_first_char_cases_witness :
    mockDetectLanguage (String.mk ['こ']) = "Japanese" ∧
    mockDetectLanguage (String.mk ['S', 'e', 'ñ', 'o', 'r']) = "Spanish" := by
  constructor
  · exact detector_first_char_cases.1 'こ' [] (by decide)
  · rw [detector_first_char_cases.2.2.2.2.2.2.1 'S' ['e', 'ñ', 'o', 'r'] (by decide)]
    decide

/-- C6 counterexample: the clamp constant is 0.95 (not 0.98) and it is
applied before the 5% outlier check, whose replacement value
`r3 * 0.5 + (r4 < 0.5 ? 0 : 0.5)` escapes the clamp entirely: with the
legitimate draws r1 = 0, r2 = 0, r3 = 0.99, r4 = 0.75 the final score is
0.995, outside [0.05, 0.98]. -/
theorem synth_score_counterexample :
    synthScore (1/2) 0 0 (99/100) (3/4) = 199/200 ∧
    ¬ synthScore (1/2) 0 0 (99/100) (3/4) ≤ 49/50 ∧
    (0 : ℚ) ≤ 0 ∧ (0 : ℚ) < 1 ∧
    (0 : ℚ) ≤ 99/100 ∧ (99/100 : ℚ) < 1 ∧
    (0 : ℚ) ≤ 3/4 ∧ (3/4 : ℚ) < 1 := by
  norm_num [synthScore]

/-- C6 (amended): each per-token score starts from base = metrics.quality
(or 0.5 when quality is absent or zero), adds a uniform jitter of ±0.2
and clamps the sum to [0.05, 0.95]; with 5% probability the clamped value
is then replaced by a directional outlier `r3/2` or `r3/2 + 1/2`, which
bypasses the clamp, so the final score always lies in [0, 1) — and in
[0.05, 0.95] whenever the outlier does not fire — but not always in
[0.05, 0.98]. -/
theorem synth_score_bounds (oq r1 r2 r3 r4 : ℚ)
    (h3a : 0 ≤ r3) (h3b : r3 < 1) :
    (0 ≤ synthScore oq r1 r2 r3 r4 ∧ synthScore oq r1 r2 r3 r4 < 1) ∧
    (1/20 ≤ r2 →
      synthScore oq r1 r2 r3 r4 = min (19/20) (max (1/20) (oq + (r1 * (2/5) - 1/5))) ∧
      1/20 ≤ synthScore oq r1 r2 r3 r4 ∧ synthScore oq r1 r2 r3 r4 ≤ 19/20) ∧
    (r2 < 1/20 →
      synthScore oq r1 r2 r3 r4 = r3 * (1/2) + (if r4 < 1/2 then 0 else 1/2)) := by
  have hclamp_lo : (1/20 : ℚ) ≤ min (19/20) (max (1/20) (oq + (r1 * (2/5) - 1/5))) :=
    le_min (by norm_num) (le_max_left _ _)
  have hclamp_hi : min (19/20 : ℚ) (max (1/20) (oq + (r1 * (2/5) - 1/5))) ≤ 19/20 :=
    min_le_left _ _
  simp only [synthScore]
  by_cases h2 : r2 < 1/20
  · rw [if_pos h2]
    refine ⟨?_, fun hge => absurd hge (not_le.mpr h2), fun _ => rfl⟩
    by_cases h4 : r4 < 1/2
    · rw [if_pos h4]
      constructor <;> linarith
    · rw [if_neg h4]
      constructor <;> linarith
  · rw [if_neg h2]
    exact ⟨⟨by linarith, by linarith⟩,
      fun _ => ⟨rfl, hclamp_lo, hclamp_hi⟩,
      fun hlt => absurd hlt h2⟩

/-- Witness for `synth_score_bounds` at concrete draws. -/
theorem synth_score_bounds_witness :
    0 ≤ synthScore (1/2) (1/4) (1/2) (1/3) (2/3) ∧
    synthScore (1/2) (1/4) (1/2) (1/3) (2/3) < 1 :=
  (synth_score_bounds (1/2) (1/4) (1/2) (1/3) (2/3) (by norm_num) (by norm_num)).1

/-- `splitWs` always produces at least one token (as JavaScript `split`
does). -/
theorem splitWs_ne_nil : ∀ cs : List Char, splitWs cs ≠ []
  | [] => by simp [splitWs]
  | [c] => by by_cases hc : isJsWs c <;> simp [splitWs, hc]
  | c :: r :: rs => by
    simp only [splitWs]
    by_cases hc : isJsWs c
    · rw [if_pos hc]
      by_cases hr : isJsWs r
      · rw [if_pos hr]
        exact splitWs_ne_nil (r :: rs)
      · rw [if_neg hr]
        simp
    · rw [if_neg hc]
      cases hrest : splitWs (r :: rs) with
      | nil => exact absurd hrest (splitWs_ne_nil (r :: rs))
      | cons t ts => simp [hrest]

/-- Concatenating the tokens of `splitWs` recovers exactly the
non-whitespace characters of the input, in order. -/
theorem splitWs_flatten : ∀ cs : List Char,
    (splitWs cs).flatten = cs.filter (fun c => !isJsWs c)
  | [] => by simp [splitWs]
  | [c] => by by_cases hc : isJsWs c <;> simp [splitWs, hc]
  | c :: r :: rs => by
    have ih := splitWs_flatten (r :: rs)
    simp only [splitWs]
    by_cases hc : isJsWs c
    · rw [if_pos hc]
      by_cases hr : isJsWs r
      · rw [if_pos hr]
        simp [List.filter_cons, hc, ih]
      · rw [if_neg hr]
        simp [List.filter_cons, hc, ih]
    · rw [if_neg hc]
      cases hrest : splitWs (r :: rs) with
      | nil => exact absurd hrest (splitWs_ne_nil (r :: rs))
      | cons t ts =>
        rw [hrest] at ih
        simp only [List.flatten_cons] at ih
        simp [hrest, List.filter_cons, hc, List.flatten_cons, ih]

/-- No token of `splitWs` contains a whitespace character. -/
theorem splitWs_no_ws : ∀ cs : List Char, ∀ tok ∈ splitWs cs, ∀ c ∈ tok, isJsWs c = false
  | [] => by
    intro tok htok c hc
    simp [splitWs] at htok
    subst htok
    simp at hc
  | [c] => by
    intro tok htok d hd
    by_cases hc : isJsWs c
    · simp [splitWs, hc] at htok
      subst htok
      simp at hd
    · simp [splitWs, hc] at htok
      subst htok
      simp at hd
      subst hd
      exact Bool.eq_false_iff.mpr hc
  | c :: r :: rs => by
    intro tok htok d hd
    simp only [splitWs] at htok
    by_cases hc : isJsWs c
    · rw [if_pos hc] at htok
      by_cases hr : isJsWs r
      · rw [if_pos hr] at htok
        exact splitWs_no_ws (r :: rs) tok htok d hd
      · rw [if_neg hr] at htok
        rcases List.mem_cons.mp htok with h | h
        · subst h
          simp at hd
        · exact splitWs_no_ws (r :: rs) tok h d hd
    · rw [if_neg hc] at htok
      cases hrest : splitWs (r :: rs) with
      | nil => exact absurd hrest (splitWs_ne_nil (r :: rs))
      | cons t ts =>
        rw [hrest] at htok
        rcases List.mem_cons.mp htok with h | h
        · subst h
          rcases List.mem_cons.mp hd with h | h
          · subst h
            exact Bool.eq_false_iff.mpr hc
          · exact splitWs_no_ws (r :: rs) t (hrest ▸ List.mem_cons_self t ts) d h
        · exact splitWs_no_ws (r :: rs) tok (hrest ▸ List.mem_cons_of_mem t h) d hd

/-- `joinData` over `String.mk`-wrapped tokens is list concatenation. -/
theorem joinData_map_mk (l : List (List Char)) :
    joinData (l.map (fun t => String.mk t)) = l.flatten := by
  induction l with
  | nil => rfl
  | cons t ts ih =>
    simp only [joinData, List.map_cons, List.foldr_cons, List.flatten_cons] at ih ⊢
    rw [ih]

/-- `joinData` over per-character tokens recovers the characters. -/
theorem joinData_map_singleton (cs : List Char) :
    joinData (cs.map (fun c => String.mk [c])) = cs := by
  induction cs with
  | nil => rfl
  | cons c rest ih =>
    simp only [joinData, List.map_cons, List.foldr_cons] at ih ⊢
    rw [ih]
    rfl

/-- C8: the heatmap renderer tokenizes per character exactly for the
fixed allow-list `['ja','zh','th','km','lo','my']` (Japanese, Chinese,
Thai, Khmer, Lao, Myanmar) — every character becomes its own token and
their concatenation is the whole text — and splits on whitespace runs for
every other target language, producing tokens that contain no whitespace
and that concatenate to exactly the non-whitespace characters of the
text, in order. -/
theorem heatmap_tokenization :
    (∀ (lang : String) (text : String), isAsian lang = true →
      heatmapItems lang text = text.data.map (fun c => String.mk [c]) ∧
      joinData (heatmapItems lang text) = text.data) ∧
    (∀ (lang : String) (text : String), isAsian lang = false →
      heatmapItems lang text = (splitWs text.data).map (fun t => String.mk t) ∧
      joinData (heatmapItems lang text) = text.data.filter (fun c => !isJsWs c) ∧
      ∀ tok ∈ heatmapItems lang text, ∀ c ∈ tok.data, isJsWs c = false) ∧
    (isAsian "ja" = true ∧ isAsian "zh" = true ∧ isAsian "th" = true ∧
      isAsian "km" = true ∧ isAsian "lo" = true ∧ isAsian "my" = true) ∧
    (isAsian "en" = false ∧ isAsian "fr" = false ∧ isAsian "hi" = false ∧
      isAsian "ta" = false ∧ isAsian "ja-JP" = false) := by
  refine ⟨?_, ?_, by decide, by decide⟩
  · intro lang text hlang
    have hdef : heatmapItems lang text = text.data.map (fun c => String.mk [c]) := by
      unfold heatmapItems
      rw [hlang]
      simp
    exact ⟨hdef, by rw [hdef, joinData_map_singleton]⟩
  · intro lang text hlang
    have hdef : heatmapItems lang text = (splitWs text.data).map (fun t => String.mk t) := by
      unfold heatmapItems
      rw [hlang]
      simp
    refine ⟨hdef, by rw [hdef, joinData_map_mk, splitWs_flatten], ?_⟩
    intro tok htok c hc
    rw [hdef] at htok
    rcases List.mem_map.mp htok with ⟨t, ht, rfl⟩
    exact splitWs_no_ws text.data t ht c hc

/-- Witness for `heatmap_tokenization`: Japanese text is split per
character, English text on whitespace. -/
theorem heatmap_tokenization_witness :
    heatmapItems "ja" (String.mk ['日', '本']) =
      [String.mk ['日'], String.mk ['本']] ∧
    heatmapItems "en" (String.mk ['h', 'i', ' ', 'y', 'o']) =
      [String.mk ['h', 'i'], String.mk ['y', 'o']] := by
  constructor
  · rw [(heatmap_tokenization.1 "ja" (String.mk ['日', '本']) (by decide)).1]
    decide
  · rw [(heatmap_tokenization.2.1 "en" (String.mk ['h', 'i', ' ', 'y', 'o']) (by decide)).1]
    decide

/-- Appending to a non-empty string stays non-empty. -/
theorem append_ne_empty (a b : String) (h : a ≠ "") : a ++ b ≠ "" := by
  intro hab
  apply h
  have hd := congrArg String.data hab
  rw [String.data_append] at hd
  exact String.ext ((List.append_eq_nil.mp hd).1.trans rfl)

/-- A JavaScript `||` chain is truthy when its right side is. -/
theorem jsOr_ne_empty (a b : String) (hb : b ≠ "") : jsOr a b ≠ "" := by
  unfold jsOr
  split_ifs with h
  · exact hb
  · exact h

/-- For non-empty trimmed input, `handleTranslate` displays exactly what
`translateText` resolves to (with the `"auto"` sentinel resolved through
the detector). -/
theorem handleTranslate_translatedText (st : AppState) (outcome : FetchOutcome)
    (h : ¬ jsTrim st.sourceText = "") :
    (handleTranslate st outcome).1.translatedText =
      (translateText st.sourceText
        (if st.sourceLang = "auto" then mockDetectLanguage st.sourceText else st.sourceLang)
        st.targetLang outcome).2 := by
  unfold handleTranslate
  rw [if_neg h]

/-- The string `translateText` resolves a non-ok response to: the
`details || error || "Translation failed: " + statusText` chain. -/
theorem translateText_notok (text sl tl stx : String) (data : RespData)
    (h : ¬ jsTrim text = "") :
    (translateText text sl tl (.completed false stx data)).2 =
      jsOr (optStr data.details) (jsOr (optStr data.error) ("Translation failed: " ++ stx)) := by
  unfold translateText
  rw [if_neg h]
  rfl

/-- C1 counterexample: in the classic orchestrator, whitespace-only input
issues no request but shows a validation error while leaving the
previously displayed translation result untouched (non-empty), so the
result does not become empty. -/
theorem classic_empty_keeps_result :
    (classicTranslate
        { sourceText := " ", translationResult := "old", errorText := ""
          errorVisible := false, loading := false } "hi" false .thrown).2 = none ∧
    (classicTranslate
        { sourceText := " ", translationResult := "old", errorText := ""
          errorVisible := false, loading := false } "hi" false .thrown).1.translationResult
      = "old" ∧
    ("old" : String) ≠ "" := by
  decide

/-- C1 (amended): for every input whose trimmed text is empty, neither
orchestrator issues a network call; the React orchestrator clears the
displayed result and the secondary translation, while the classic
orchestrator instead shows the validation error "Please enter some text
to translate." and leaves the previously displayed result unchanged. -/
theorem empty_input_no_request :
    (∀ (st : AppState) (outcome : FetchOutcome), jsTrim st.sourceText = "" →
      (handleTranslate st outcome).2 = none ∧
      (handleTranslate st outcome).1.translatedText = "" ∧
      (handleTranslate st outcome).1.secondaryTranslation = "") ∧
    (∀ (st : ClassicState) (lang : String) (mb : Bool) (outcome : ClassicOutcome),
      jsTrim st.sourceText = "" →
      (classicTranslate st lang mb outcome).2 = none ∧
      (classicTranslate st lang mb outcome).1.translationResult = st.translationResult ∧
      (classicTranslate st lang mb outcome).1.errorVisible = true ∧
      (classicTranslate st lang mb outcome).1.errorText
        = "Please enter some text to translate.") := by
  constructor
  · intro st outcome h
    unfold handleTranslate
    rw [if_pos h]
    exact ⟨rfl, rfl, rfl⟩
  · intro st lang mb outcome h
    unfold classicTranslate
    rw [if_pos h]
    exact ⟨rfl, rfl, rfl, rfl⟩

/-- Witness for `empty_input_no_request` on a two-space input with a
previous result present. -/
theorem empty_input_no_request_witness :
    (handleTranslate
        { sourceText := "  ", translatedText := "prev", secondaryTranslation := "sec"
          sourceLang := "English", targetLang := "Hindi", isTranslating := false }
        (.thrown none)).2 = none ∧
    (classicTranslate
        { sourceText := "  ", translationResult := "prev", errorText := ""
          errorVisible := false, loading := false } "hi" false .thrown).2 = none :=
  ⟨(empty_input_no_request.1 _ (.thrown none) (by decide)).1,
   (empty_input_no_request.2 _ "hi" false .thrown (by decide)).1⟩

/-- C2 counterexample: in the classic orchestrator a response with a
non-success status (`response.ok` false, e.g. status 500) produces a
non-empty error string in the error container but leaves the previously
displayed translated text "stale" as the result. -/
theorem classic_error_keeps_stale :
    (classicTranslate
        { sourceText := "hello", translationResult := "stale", errorText := ""
          errorVisible := false, loading := false } "hi" false
        (.completed false { translation := none, error := none })).1.translationResult
      = "stale" ∧
    ("stale" : String) ≠ "" ∧
    (classicTranslate
        { sourceText := "hello", translationResult := "stale", errorText := ""
          errorVisible := false, loading := false } "hi" false
        (.completed false { translation := none, error := none })).1.errorText
      = "Translation failed. Please try again." := by
  decide

/-- C2 (amended): for every HTTP response with status ≥400 both
orchestrators produce a non-empty user-visible error string; the React
orchestrator displays it as the result, replacing any stale text (the
displayed result equals the `details || error || "Translation failed: "
+ statusText` chain exactly), while
the classic orchestrator shows it in a separate error container and
leaves the previously displayed translated text unchanged.  A thrown
exception is displayed by the React orchestrator as the exception's
message (generic non-empty fallback for non-`Error` values, so the
displayed string is non-empty whenever the message is), and by the
classic orchestrator as a generic non-empty message, again leaving its
previous result unchanged. -/
theorem failure_error_handling :
    (∀ (st : AppState) (statusText : String) (data : RespData),
      ¬ jsTrim st.sourceText = "" →
      (handleTranslate st (.completed false statusText data)).1.translatedText
        = jsOr (optStr data.details)
            (jsOr (optStr data.error) ("Translation failed: " ++ statusText)) ∧
      (handleTranslate st (.completed false statusText data)).1.translatedText ≠ "") ∧
    (∀ (st : AppState) (m : String), ¬ jsTrim st.sourceText = "" →
      (handleTranslate st (.thrown (some m))).1.translatedText = m) ∧
    (∀ st : AppState, ¬ jsTrim st.sourceText = "" →
      (handleTranslate st (.thrown none)).1.translatedText
        = "Translation failed. Please try again.") ∧
    (∀ (st : ClassicState) (lang : String) (mb : Bool) (data : ClassicData),
      ¬ jsTrim st.sourceText = "" →
      (classicTranslate st lang mb (.completed false data)).1.errorText ≠ "" ∧
      (classicTranslate st lang mb (.completed false data)).1.errorVisible = true ∧
      (classicTranslate st lang mb (.completed false data)).1.translationResult
        = st.translationResult) ∧
    (∀ (st : ClassicState) (lang : String) (mb : Bool),
      ¬ jsTrim st.sourceText = "" →
      (classicTranslate st lang mb .thrown).1.errorText ≠ "" ∧
      (classicTranslate st lang mb .thrown).1.errorVisible = true ∧
      (classicTranslate st lang mb .thrown).1.translationResult
        = st.translationResult) := by
  refine ⟨?_, ?_, ?_, ?_, ?_⟩
  · intro st statusText data h
    have he : (handleTranslate st (.completed false statusText data)).1.translatedText
        = jsOr (optStr data.details)
            (jsOr (optStr data.error) ("Translation failed: " ++ statusText)) := by
      rw [handleTranslate_translatedText st _ h, translateText_notok _ _ _ _ _ h]
    refine ⟨he, ?_⟩
    rw [he]
    exact jsOr_ne_empty _ _ (jsOr_ne_empty _ _
      (append_ne_empty _ _ (by decide)))
  · intro st m h
    rw [handleTranslate_translatedText st _ h]
    unfold translateText
    rw [if_neg h]
  · intro st h
    rw [handleTranslate_translatedText st _ h]
    unfold translateText
    rw [if_neg h]
  · intro st lang mb data h
    unfold classicTranslate
    rw [if_neg h]
    refine ⟨?_, rfl, rfl⟩
    show jsOr (optStr data.error) "Translation failed. Please try again." ≠ ""
    exact jsOr_ne_empty _ _ (by decide)
  · intro st lang mb h
    unfold classicTranslate
    rw [if_neg h]
    refine ⟨?_, rfl, rfl⟩
    show ("An error occurred. Please try again later." : String) ≠ ""
    decide

/-- Witness for `failure_error_handling` on a concrete 500-style response
and a concrete thrown error. -/
theorem failure_error_handling_witness :
    (handleTranslate
        { sourceText := "hello", translatedText := "stale", secondaryTranslation := ""
          sourceLang := "English", targetLang := "Hindi", isTranslating := false }
        (.completed false "Internal Server Error"
          { translation := none, translated_text := none
            error := none, details := none })).1.translatedText ≠ "" ∧
    (handleTranslate
        { sourceText := "hello", translatedText := "stale", secondaryTranslation := ""
          sourceLang := "English", targetLang := "Hindi", isTranslating := false }
        (.thrown (some "boom"))).1.translatedText = "boom" :=
  ⟨(failure_error_handling.1 _ "Internal Server Error" _ (by decide)).2,
   failure_error_handling.2.1 _ "boom" (by decide)⟩

/-- The fixed user-facing error string of the route's catch path is
non-empty. -/
theorem route_error_nonempty :
    ("Translation failed. Please try again." : String) ≠ "" := by
  decide

/-- C9: the route handler is total and never propagates an exception:
every outcome yields either status 200 with the upstream JSON body
unchanged or status 500 with a JSON body whose `error` field is a fixed
non-empty string (and whose `details` field is a string by construction).
Each failure path — request-body parse throw, fetch throw, upstream
non-OK status, and `response.json()` throw — is pinned to the 500
response individually, and the success path to the 200 response. -/
theorem route_post_behavior (α : Type) (reqParse : Except (Option String) RouteReqBody)
    (fetched : Except (Option String) (UpstreamResponse α)) :
    ((∃ data : α, routePOST α reqParse fetched = { status := 200, body := .json data }) ∨
      (∃ eb : RouteErrorBody,
        routePOST α reqParse fetched = { status := 500, body := .err eb } ∧
        eb.error = "Translation failed. Please try again." ∧ eb.error ≠ "")) ∧
    (∀ (rb : RouteReqBody) (resp : UpstreamResponse α) (data : α),
      reqParse = .ok rb → fetched = .ok resp → resp.ok = true → resp.jsonBody = .ok data →
      routePOST α reqParse fetched = { status := 200, body := .json data }) ∧
    (∀ e : Option String, reqParse = .error e →
      (routePOST α reqParse fetched).status = 500 ∧
      ∃ eb : RouteErrorBody, (routePOST α reqParse fetched).body = .err eb ∧
        eb.error = "Translation failed. Please try again." ∧ eb.error ≠ "") ∧
    (∀ (rb : RouteReqBody) (e : Option String),
      reqParse = .ok rb → fetched = .error e →
      (routePOST α reqParse fetched).status = 500 ∧
      ∃ eb : RouteErrorBody, (routePOST α reqParse fetched).body = .err eb ∧
        eb.error = "Translation failed. Please try again." ∧ eb.error ≠ "") ∧
    (∀ (rb : RouteReqBody) (resp : UpstreamResponse α),
      reqParse = .ok rb → fetched = .ok resp → resp.ok = false →
      (routePOST α reqParse fetched).status = 500 ∧
      ∃ eb : RouteErrorBody, (routePOST α reqParse fetched).body = .err eb ∧
        eb.error = "Translation failed. Please try again." ∧ eb.error ≠ "") ∧
    (∀ (rb : RouteReqBody) (resp : UpstreamResponse α) (je : Option String),
      reqParse = .ok rb → fetched = .ok resp → resp.ok = true → resp.jsonBody = .error je →
      (routePOST α reqParse fetched).status = 500 ∧
      ∃ eb : RouteErrorBody, (routePOST α reqParse fetched).body = .err eb ∧
        eb.error = "Translation failed. Please try again." ∧ eb.error ≠ "") := by
  rcases reqParse with e | rb
  · refine ⟨Or.inr ⟨_, rfl, rfl, route_error_nonempty⟩, ?_, ?_, ?_, ?_, ?_⟩
    · intro rb resp data h1 _ _ _
      exact absurd h1 (by simp)
    · intro e2 _
      exact ⟨rfl, _, rfl, rfl, route_error_nonempty⟩
    · intro rb e2 h1 _
      exact absurd h1 (by simp)
    · intro rb resp h1 _ _
      exact absurd h1 (by simp)
    · intro rb resp je h1 _ _ _
      exact absurd h1 (by simp)
  · rcases fetched with e2 | resp
    · refine ⟨Or.inr ⟨_, rfl, rfl, route_error_nonempty⟩, ?_, ?_, ?_, ?_, ?_⟩
      · intro rb2 r2 data _ h2 _ _
        exact absurd h2 (by simp)
      · intro e3 h1
        exact absurd h1 (by simp)
      · intro rb2 e3 _ _
        exact ⟨rfl, _, rfl, rfl, route_error_nonempty⟩
      · intro rb2 r2 _ h2 _
        exact absurd h2 (by simp)
      · intro rb2 r2 je _ h2 _ _
        exact absurd h2 (by simp)
    · obtain ⟨ok, stx, tb, jb⟩ := resp
      cases ok
      · rcases tb with te | tv
        · refine ⟨Or.inr ⟨_, rfl, rfl, route_error_nonempty⟩, ?_, ?_, ?_, ?_, ?_⟩
          · intro rb2 r2 data _ h2 h3 _
            injection h2 with h2
            subst h2
            simp at h3
          · intro e3 h1
            exact absurd h1 (by simp)
          · intro rb2 e3 _ h2
            exact absurd h2 (by simp)
          · intro rb2 r2 _ _ _
            exact ⟨rfl, _, rfl, rfl, route_error_nonempty⟩
          · intro rb2 r2 je _ h2 h3 _
            injection h2 with h2
            subst h2
            simp at h3
        · refine ⟨Or.inr ⟨_, rfl, rfl, route_error_nonempty⟩, ?_, ?_, ?_, ?_, ?_⟩
          · intro rb2 r2 data _ h2 h3 _
            injection h2 with h2
            subst h2
            simp at h3
          · intro e3 h1
            exact absurd h1 (by simp)
          · intro rb2 e3 _ h2
            exact absurd h2 (by simp)
          · intro rb2 r2 _ _ _
            exact ⟨rfl, _, rfl, rfl, route_error_nonempty⟩
          · intro rb2 r2 je _ h2 h3 _
            injection h2 with h2
            subst h2
            simp at h3
      · rcases jb with je | data
        · refine ⟨Or.inr ⟨_, rfl, rfl, route_error_nonempty⟩, ?_, ?_, ?_, ?_, ?_⟩
          · intro rb2 r2 data _ h2 _ h4
            injection h2 with h2
            subst h2
            simp at h4
          · intro e3 h1
            exact absurd h1 (by simp)
          · intro rb2 e3 _ h2
            exact absurd h2 (by simp)
          · intro rb2 r2 _ h2 h3
            injection h2 with h2
            subst h2
            simp at h3
          · intro rb2 r2 je2 _ h2 _ _
            exact ⟨rfl, _, rfl, rfl, route_error_nonempty⟩
        · refine ⟨Or.inl ⟨data, rfl⟩, ?_, ?_, ?_, ?_, ?_⟩
          · intro rb2 r2 d _ h2 _ h4
            injection h2 with h2
            subst h2
            simp only at h4
            injection h4 with h4
            subst h4
            rfl
          · intro e3 h1
            exact absurd h1 (by simp)
          · intro rb2 e3 _ h2
            exact absurd h2 (by simp)
          · intro rb2 r2 _ h2 h3
            injection h2 with h2
            subst h2
            simp at h3
          · intro rb2 r2 je _ h2 _ h4
            injection h2 with h2
            subst h2
            simp at h4

/-- Witness for `route_post_behavior`: a concrete successful round trip
returns the upstream data at status 200, and a concrete request-parse
failure returns status 500. -/
theorem route_post_behavior_witness :
    routePOST Nat (.ok { text := "hi", source_lang := none, target_lang := "Hindi" })
        (.ok { ok := true, statusText := "OK", textBody := .ok "", jsonBody := .ok 7 })
      = { status := 200, body := .json 7 } ∧
    (routePOST Nat (.error (some "bad json"))
        (.ok { ok := true, statusText := "OK", textBody := .ok "", jsonBody := .ok 7 })).status
      = 500 :=
  ⟨(route_post_behavior Nat _ _).2.1 _ _ 7 rfl rfl rfl rfl,
   ((route_post_behavior Nat _ _).2.2.1 (some "bad json") rfl).1⟩
